import Mathlib

/-!
Verification of the Modbus reconnaissance toolkit (two near-duplicate Python
source files: `modbus_toolkit.py`, prefixed `mt_` below, and
`modbusrecon_toolkit.py`, prefixed `mr_` below) against its natural-language
specification.

Shallow embedding conventions:
* The remote device / network is an oracle (`ClientBehavior`, `RawConn`): each
  protocol call is a field mapping the request arguments to one of three
  outcomes — a successful payload, a Modbus protocol error response
  (`response.isError()` true), or a raised transport exception with a message.
  Python `try`/`except` around a call becomes a `match` on that outcome, so
  every probe routine is a total function and "never raises" is by construction.
* Python dict records become association lists `List (String × Value)` in
  insertion order; dict key iteration order in CPython is insertion order.
* `random.randint(a, b)` is modelled by feeding an arbitrary entropy stream
  through `randint a b`, which realises the documented contract that the
  result lies in `[a, b]`.
* `str(...)` of a list of dicts is modelled by `pyReprProbeList` (Python repr
  with single-quoted strings; escaping of quotes inside strings is not
  modelled, which is irrelevant here — only shape and non-emptiness matter).
-/

namespace ModbusSpec

/-- Outcome of one pymodbus protocol call carrying a list of numeric values
    (registers) on success: success, protocol error response, or a raised
    exception with message `msg`. -/
inductive ReadOutcome where
  | ok (values : List Nat)
  | err
  | exn (msg : String)
deriving DecidableEq

/-- Outcome of `read_coils` (bit payload). -/
inductive CoilOutcome where
  | ok (bits : List Bool)
  | err
  | exn (msg : String)
deriving DecidableEq

/-- Outcome of `write_registers`: success, error response, or exception. -/
inductive WriteOutcome where
  | ok
  | err
  | exn (msg : String)
deriving DecidableEq

/-- Outcome of `read_device_information`: the `information` mapping
    (object id → value, insertion order) on success, else error/exception. -/
inductive DevInfoOutcome where
  | ok (information : List (Nat × String))
  | err
  | exn (msg : String)
deriving DecidableEq

/-- `true` when the device-identification request failed (protocol error
    response or transport exception). -/
def DevInfoOutcome.failed : DevInfoOutcome → Bool
  | .ok _ => false
  | .err => true
  | .exn _ => true

/-- Behaviour oracle for one connected `ModbusTcpClient` session: what each
    protocol call returns for given arguments. -/
structure ClientBehavior where
  readHolding : Nat → Nat → ReadOutcome
  readInput : Nat → Nat → ReadOutcome
  readCoils : Nat → Nat → CoilOutcome
  writeRegisters : Nat → List Nat → WriteOutcome
  readDeviceInfo : DevInfoOutcome

/-- A value stored in one of the toolkit's Python result dicts. -/
inductive Value where
  | vStr (s : String)
  | vNat (n : Nat)
  | vInts (l : List Nat)
  | vBools (l : List Bool)
deriving DecidableEq

/-- A result record: a Python dict in insertion order. -/
abbrev Record := List (String × Value)

/-- The dict's key set in insertion order (`record.keys()`). -/
def keysOf (r : Record) : List String := r.map Prod.fst

/-- Field lookup (`record[k]`), first binding wins. -/
def fieldOf (r : Record) (k : String) : Option Value := List.lookup k r

/-- `DEVICE_SIGNATURES` from modbusrecon_toolkit.py, in declaration order:
    substring signature → vendor label. -/
def DEVICE_SIGNATURES : List (String × String) :=
  [("Schneider Electric", "Schneider PLC"),
   ("Siemens", "Siemens S7"),
   ("WAGO", "WAGO Controller"),
   ("Mitsubishi", "Mitsubishi Electric PLC"),
   ("Modicon", "Modicon PLC"),
   ("Rockwell", "Allen-Bradley PLC"),
   ("Delta", "Delta PLC")]

/-- `needle` starts the list `hay` (helper for substring containment). -/
def listStartsWith : List Char → List Char → Bool
  | [], _ => true
  | _ :: _, [] => false
  | a :: as, b :: bs => a == b && listStartsWith as bs

/-- `needle` occurs contiguously inside `hay` (Python `needle in hay`
    on strings, over their character lists). -/
def listHasSub (needle : List Char) : List Char → Bool
  | [] => needle.isEmpty
  | b :: bs => listStartsWith needle (b :: bs) || listHasSub needle bs

/-- Python `needle in hay` for strings. -/
def strContains (hay needle : String) : Bool :=
  listHasSub needle.toList hay.toList

/-- Python `s.lower()` (ASCII range; every signature in the table is ASCII). -/
def lowerStr (s : String) : String := ⟨s.data.map Char.toLower⟩

/-- One device-identification field value matched against the signature table
    in declared order: label of the first signature whose lowercase form is a
    substring of the lowercase value (the inner loop of `identify_vendor`). -/
def vendorOfValue (v : String) : Option String :=
  DEVICE_SIGNATURES.findSome? fun p =>
    if strContains (lowerStr v) (lowerStr p.1) then some p.2 else none

/-- `identify_vendor` from modbusrecon_toolkit.py: outer loop over the fields
    of `info` in mapping order, inner loop over `DEVICE_SIGNATURES` in table
    order, returning at the first match; `"Unknown Device"` when nothing
    matches. -/
def identify_vendor (info : List (Nat × String)) : String :=
  match info.findSome? (fun kv => vendorOfValue kv.2) with
  | some label => label
  | none => "Unknown Device"

/-- What the spec asserts vendor identification does: scan the signature
    table in declared order in the OUTER loop, testing each signature against
    every field value, so that table order (not field order) decides.
    Stated from the spec's words, to be compared with `identify_vendor`. -/
def spec_identify_vendor (info : List (Nat × String)) : String :=
  match DEVICE_SIGNATURES.findSome? (fun p =>
      if info.any (fun kv => strContains (lowerStr kv.2) (lowerStr p.1))
      then some p.2 else none) with
  | some label => label
  | none => "Unknown Device"

/-! ### Python `range` and the register/coil sweeps -/

/-- Number of elements of Python `range(start, stop, step)` for positive
    `step` (Python raises `ValueError` on `step = 0`; all call sites in the
    toolkit use a positive step). -/
def pyRangeLen (start stop step : Nat) : Nat :=
  if start < stop then (stop - start + step - 1) / step else 0

/-- Python `range(start, stop, step)` as a list, for positive `step`. -/
def pyRange (start stop step : Nat) : List Nat :=
  (List.range (pyRangeLen start stop step)).map (fun i => start + i * step)

/-- One loop iteration of `scan_registers`: issue the read for the window at
    `addr` requesting `count` registers and build the result dict. On a
    protocol error the status is `"Error"` and the values are `[]`; on an
    exception the status is `"Exception: " ++ msg` and the values are `[]`. -/
def regWindowRecord (beh : ClientBehavior) (ip reg_type : String)
    (addr count : Nat) : Record :=
  match (if reg_type = "holding" then beh.readHolding addr count
         else beh.readInput addr count) with
  | .ok vs =>
      [("Host", .vStr ip), ("Type", .vStr reg_type), ("Address", .vNat addr),
       ("Values", .vInts vs), ("Status", .vStr "OK")]
  | .err =>
      [("Host", .vStr ip), ("Type", .vStr reg_type), ("Address", .vNat addr),
       ("Values", .vInts []), ("Status", .vStr "Error")]
  | .exn e =>
      [("Host", .vStr ip), ("Type", .vStr reg_type), ("Address", .vNat addr),
       ("Values", .vInts []), ("Status", .vStr ("Exception: " ++ e))]

/-- `scan_registers` from modbus_toolkit.py: one read per window of
    `range(start, end, step)`, requesting `step` registers at each address,
    appending one result dict per window in scan order. -/
def scan_registers (beh : ClientBehavior) (ip : String)
    (start stop step : Nat) (reg_type : String) : List Record :=
  (pyRange start stop step).map (fun addr => regWindowRecord beh ip reg_type addr step)

/-- One loop iteration of `scan_coils`. -/
def coilWindowRecord (beh : ClientBehavior) (ip : String)
    (addr count : Nat) : Record :=
  match beh.readCoils addr count with
  | .ok bs =>
      [("Host", .vStr ip), ("Type", .vStr "coil"), ("Address", .vNat addr),
       ("Values", .vBools bs), ("Status", .vStr "OK")]
  | .err =>
      [("Host", .vStr ip), ("Type", .vStr "coil"), ("Address", .vNat addr),
       ("Values", .vBools []), ("Status", .vStr "Error")]
  | .exn e =>
      [("Host", .vStr ip), ("Type", .vStr "coil"), ("Address", .vNat addr),
       ("Values", .vBools []), ("Status", .vStr ("Exception: " ++ e))]

/-- `scan_coils` from modbus_toolkit.py. -/
def scan_coils (beh : ClientBehavior) (ip : String)
    (start stop step : Nat) : List Record :=
  (pyRange start stop step).map (fun addr => coilWindowRecord beh ip addr step)

/-! ### Fuzzer -/

/-- Contract of `random.randint(a, b)` fed one entropy value: a result in
    `[a, b]`, both ends included. -/
def randint (a b n : Nat) : Nat := a + n % (b - a + 1)

/-- One round of `fuzz_registers`: pick a start address in `[0, 120]` and
    `count` values in `[0, 65535]`, issue `write_registers`, and record the
    outcome; the generated address and values are recorded even when the
    write raises. `ent 0` is the address entropy, `ent (j+1)` the entropy of
    value `j`. -/
def fuzzRoundRecord (beh : ClientBehavior) (ip : String) (count : Nat)
    (ent : Nat → Nat) : Record :=
  let addr := randint 0 120 (ent 0)
  let values := (List.range count).map (fun j => randint 0 65535 (ent (j + 1)))
  let status :=
    match beh.writeRegisters addr values with
    | .ok => "OK"
    | .err => "Error"
    | .exn e => "Exception: " ++ e
  [("Host", .vStr ip), ("Type", .vStr "fuzz_register"), ("Address", .vNat addr),
   ("Values", .vInts values), ("Status", .vStr status)]

/-- `fuzz_registers` from modbus_toolkit.py: `iterations` rounds, one result
    dict appended per round. -/
def fuzz_registers (beh : ClientBehavior) (ip : String)
    (count iterations : Nat) (ent : Nat → Nat → Nat) : List Record :=
  (List.range iterations).map (fun i => fuzzRoundRecord beh ip count (ent i))

/-! ### Banner probe -/

/-- Raw-socket oracle for `banner_grab`: whether `socket.create_connection`
    succeeds, whether `send` succeeds, and what `recv` yields (`none` = the
    recv raised; `some bytes` = the pending byte stream). -/
structure RawConn where
  connectOk : Bool
  sendOk : Bool
  recvData : Option (List Nat)

/-- Hex digit characters. -/
def hexDigitChar (n : Nat) : Char := "0123456789abcdef".toList.getD n '0'

/-- `bytes.hex()`: two lowercase hex digits per byte. -/
def hexEncode (bs : List Nat) : String :=
  ⟨bs.flatMap (fun b => [hexDigitChar (b / 16 % 16), hexDigitChar (b % 16)])⟩

/-- The fixed frame `banner_grab` sends:
    `b'\x00\x00\x00\x06\x01\x03\x00\x00\x00\x01'` (10 bytes). -/
def bannerFrame : List Nat := [0, 0, 0, 6, 1, 3, 0, 0, 0, 1]

/-- Modelled from the spec: the Modbus-TCP (MBAP) encoding of a read request
    with the stated header fields — 2-byte transaction id, 2-byte protocol
    id, 2-byte length, 1-byte unit id, function code, 2-byte start address,
    2-byte count. Stated from the spec's words (§6, banner probe frame), to
    be compared with `bannerFrame`. -/
def specBannerFrame (txid protoid len unit fc addr count : Nat) : List Nat :=
  [txid / 256 % 256, txid % 256, protoid / 256 % 256, protoid % 256,
   len / 256 % 256, len % 256, unit, fc,
   addr / 256 % 256, addr % 256, count / 256 % 256, count % 256]

/-- `banner_grab` from modbus_toolkit.py. Returns the list of frames passed
    to `send` (observable side effect) and the result: on any failure
    (connect, send, or recv raising) the whole `try` returns `None`;
    otherwise the hex encoding of the at most 1024 bytes `recv(1024)`
    returned. -/
def banner_grab (conn : RawConn) : List (List Nat) × Option String :=
  if conn.connectOk then
    if conn.sendOk then
      match conn.recvData with
      | some data => ([bannerFrame], some (hexEncode (data.take 1024)))
      | none => ([bannerFrame], none)
    else ([bannerFrame], none)
  else ([], none)

/-! ### Python repr of the scan-result list (for `str(patterns)`) -/

/-- Python repr of one dict value as it appears in `str()` of a result dict:
    strings single-quoted, ints bare, lists bracketed (escaping of quote
    characters inside strings is not modelled). -/
def pyReprValue : Value → String
  | .vStr s => "'" ++ s ++ "'"
  | .vNat n => toString n
  | .vInts l => "[" ++ String.intercalate ", " (l.map toString) ++ "]"
  | .vBools l =>
      "[" ++ String.intercalate ", " (l.map (fun b => if b then "True" else "False")) ++ "]"

/-- Python repr of one result dict. -/
def pyReprRecord (r : Record) : String :=
  "\x7b" ++ String.intercalate ", "
    (r.map (fun kv => "'" ++ kv.1 ++ "': " ++ pyReprValue kv.2)) ++ "\x7d"

/-- Python `str(...)` of a list of result dicts. -/
def pyReprProbeList (rs : List Record) : String :=
  "[" ++ String.intercalate ", " (rs.map pyReprRecord) ++ "]"

/-! ### Fingerprinting -/

/-- `fallback_fingerprint` from modbus_toolkit.py: scan holding registers
    over `range(0, 10, 2)` (five windows), grab a banner, and assemble a
    `fallback_fingerprint` record with status `"OK"`. `banner if banner else
    "None"`: Python truthiness, so both `None` and the empty string become
    `"None"`. -/
def fallback_fingerprint (beh : ClientBehavior) (conn : RawConn)
    (ip : String) : Record :=
  let patterns := scan_registers beh ip 0 10 2 "holding"
  let banner := (banner_grab conn).2
  [("Host", .vStr ip),
   ("Type", .vStr "fallback_fingerprint"),
   ("Status", .vStr "OK"),
   ("Banner", .vStr (match banner with
     | some b => if b = "" then "None" else b
     | none => "None")),
   ("RegisterSample", .vStr (pyReprProbeList patterns))]

/-- `fingerprint_device` from modbus_toolkit.py: on a successful
    device-identification response, a `device_info` record with one
    `device_<obj_id>` field per information item; on a protocol error or a
    raised exception, the fallback fingerprint. -/
def mt_fingerprint_device (beh : ClientBehavior) (conn : RawConn)
    (ip : String) : Record :=
  match beh.readDeviceInfo with
  | .ok information =>
      [("Host", .vStr ip), ("Type", .vStr "device_info"), ("Status", .vStr "OK")]
        ++ information.map (fun kv => ("device_" ++ toString kv.1, Value.vStr kv.2))
  | .err => fallback_fingerprint beh conn ip
  | .exn _ => fallback_fingerprint beh conn ip

/-- `fingerprint_device` from modbusrecon_toolkit.py: on a protocol error it
    returns `None` (no record at all); on success, a `device_info` record
    with the information fields and the vendor; on a raised exception, a
    `device_info` record whose status is `"Exception: " ++ msg`. There is no
    fallback fingerprint in this file. -/
def mr_fingerprint_device (beh : ClientBehavior) (ip : String)
    (port : Nat) : Option Record :=
  match beh.readDeviceInfo with
  | .err => none
  | .ok information =>
      some ([("Host", .vStr ip), ("Port", .vNat port),
             ("Type", .vStr "device_info"), ("Status", .vStr "OK")]
        ++ information.map (fun kv => ("device_" ++ toString kv.1, Value.vStr kv.2))
        ++ [("Vendor", .vStr (identify_vendor information))])
  | .exn e =>
      some [("Host", .vStr ip), ("Port", .vNat port),
            ("Type", .vStr "device_info"), ("Status", .vStr ("Exception: " ++ e))]

/-- The fingerprinting loop of modbus_toolkit.py's `main`: one
    `fingerprint_device` record per connected target, appended in target
    order (the record is a non-empty dict, hence always truthy, so the
    `if info:` guard always appends). This is the sequence handed to the
    report collaborator. -/
def mt_collect (beh : String → ClientBehavior) (conn : String → RawConn)
    (targets : List String) : List Record :=
  targets.map (fun ip => mt_fingerprint_device (beh ip) (conn ip) ip)

/-! ### Liveness check (`check_modbus`) -/

/-- `check_modbus` from modbus_toolkit.py, with an explicit close flag.
    `beh = none` models a failed `connect` (no session). The second
    component is `some closed` when a session was opened: the code closes
    the client after the `try` block, but `return ip` on a non-error
    `read_coils` response exits the function BEFORE `client.close()` runs,
    so on the success path the session is left open. -/
def mt_check_modbus (beh : Option ClientBehavior) (ip : String) :
    Option String × Option Bool :=
  match beh with
  | none => (none, none)
  | some cb =>
      match cb.readCoils 0 1 with
      | .ok _ => (some ip, some false)
      | .err => (none, some true)
      | .exn _ => (none, some true)

/-- `check_modbus` from modbusrecon_toolkit.py: iterate the ports; per port,
    `beh port = none` models a failed `connect` (continue). On a non-error
    `read_coils` the client is closed and `(ip, port)` returned; on an error
    response the client is closed and the loop continues; when `read_coils`
    raises, the `except` skips `client.close()`, so that session leaks and
    the loop continues. The second component lists, in order, the close flag
    of every session opened. -/
def mr_check_modbus (beh : Nat → Option ClientBehavior) (ip : String) :
    List Nat → Option (String × Nat) × List Bool
  | [] => (none, [])
  | port :: rest =>
      match beh port with
      | none => mr_check_modbus beh ip rest
      | some cb =>
          match cb.readCoils 0 1 with
          | .ok _ => (some (ip, port), [true])
          | .err =>
              let r := mr_check_modbus beh ip rest
              (r.1, true :: r.2)
          | .exn _ =>
              let r := mr_check_modbus beh ip rest
              (r.1, false :: r.2)

/-! ### Subnet expansion (`ipaddress.IPv4Network(...).hosts()`) -/

/-- `ipaddress.IPv4Network(subnet).hosts()` as called by `scan_subnet`, over
    an already-parsed network (address `net` as a 32-bit number with the
    host bits zero, prefix length `plen`): all addresses of the block except
    the network and broadcast addresses, ascending — except that per the
    CPython `ipaddress` semantics a /31 yields both addresses and a /32
    yields the single address. -/
def hostsOf (net plen : Nat) : List Nat :=
  if 31 ≤ plen then (List.range (2 ^ (32 - plen))).map (fun i => net + i)
  else (List.range (2 ^ (32 - plen) - 2)).map (fun i => net + 1 + i)

/-! ### Concrete behaviours used as test fixtures -/

/-- A session where every protocol call returns a Modbus error response. -/
def behErr : ClientBehavior :=
  { readHolding := fun _ _ => .err, readInput := fun _ _ => .err,
    readCoils := fun _ _ => .err, writeRegisters := fun _ _ => .err,
    readDeviceInfo := .err }

/-- Like `behErr` but device identification raises a transport exception. -/
def behInfoExn : ClientBehavior := { behErr with readDeviceInfo := .exn "timeout" }

/-- Like `behErr` but device identification succeeds with one object. -/
def behInfoOk : ClientBehavior := { behErr with readDeviceInfo := .ok [(0, "X")] }

/-- Like `behErr` but `read_coils` answers without error. -/
def behCoilOk : ClientBehavior := { behErr with readCoils := fun _ _ => .ok [true] }

/-- Like `behErr` but `read_coils` raises a transport exception. -/
def behCoilExn : ClientBehavior := { behErr with readCoils := fun _ _ => .exn "reset" }

/-- A raw connection that cannot be established. -/
def connDead : RawConn := { connectOk := false, sendOk := false, recvData := none }

/-- A raw connection that answers the banner probe with three bytes. -/
def connLive : RawConn := { connectOk := true, sendOk := true, recvData := some [1, 2, 255] }

/-! ## Theorems -/

/-! ### C2: vendor identification -/

lemma mem_sig_siemens : ("Siemens", "Siemens S7") ∈ DEVICE_SIGNATURES := by decide

lemma vendorOfValue_ne_none_of_siemens (v : String)
    (h : strContains (lowerStr v) (lowerStr "Siemens") = true) :
    vendorOfValue v ≠ none := by
  intro hnone
  rw [vendorOfValue, List.findSome?_eq_none_iff] at hnone
  have := hnone ("Siemens", "Siemens S7") mem_sig_siemens
  rw [if_pos h] at this
  exact Option.some_ne_none _ this

lemma findSome?_none_or_const {α β : Type} (f : α → Option β) (c : β) :
    ∀ l : List α, (∀ x ∈ l, ∀ y, f x = some y → y = c) →
      l.findSome? f = none ∨ l.findSome? f = some c
  | [], _ => Or.inl rfl
  | x :: l, h => by
      rw [List.findSome?_cons]
      cases hf : f x with
      | none =>
          exact findSome?_none_or_const f c l
            (fun q hq => h q (List.mem_cons_of_mem x hq))
      | some y =>
          exact Or.inr (by rw [h x (List.mem_cons_self x l) y hf])

lemma findSome?_eq_const {α β : Type} (f : α → Option β) (c : β) :
    ∀ l : List α, (∀ x ∈ l, f x = none ∨ f x = some c) →
      (∃ x ∈ l, f x ≠ none) → l.findSome? f = some c
  | [], _, hex => absurd hex (by simp)
  | x :: l, h, hex => by
      rw [List.findSome?_cons]
      cases hf : f x with
      | none =>
          refine findSome?_eq_const f c l
            (fun q hq => h q (List.mem_cons_of_mem x hq)) ?_
          rcases hex with ⟨q, hq, hqne⟩
          rcases List.mem_cons.mp hq with heq | hmem
          · exact absurd (heq ▸ hf) hqne
          · exact ⟨q, hmem, hqne⟩
      | some y =>
          rcases h x (List.mem_cons_self x l) with hn | hc
          · exact absurd hf (hn ▸ (by simp))
          · rw [hf] at hc; exact hc

lemma vendorOfValue_none_or_siemens (v : String)
    (h : ∀ p ∈ DEVICE_SIGNATURES,
      strContains (lowerStr v) (lowerStr p.1) = true → p.1 = "Siemens") :
    vendorOfValue v = none ∨ vendorOfValue v = some "Siemens S7" := by
  have hlabel : ∀ p ∈ DEVICE_SIGNATURES, p.1 = "Siemens" → p.2 = "Siemens S7" := by decide
  rw [vendorOfValue]
  refine findSome?_none_or_const _ _ DEVICE_SIGNATURES ?_
  intro p hp y hy
  by_cases hc : strContains (lowerStr v) (lowerStr p.1) = true
  · rw [if_pos hc] at hy
    have := hlabel p hp (h p hp hc)
    rw [← this]
    exact (Option.some.injEq _ _ ▸ hy).symm
  · rw [if_neg hc] at hy
    cases hy

/-- C2 counterexample: the claim says table order (not field order) decides,
    so a mapping whose first field matches only the last table entry
    ("Delta") and whose second field matches the first table entry
    ("Schneider Electric") should yield "Schneider PLC"; `identify_vendor`
    iterates the fields in the OUTER loop and returns "Delta PLC". -/
theorem identify_vendor_table_order_refuted :
    identify_vendor [(0, "Delta"), (1, "Schneider Electric")] = "Delta PLC"
    ∧ spec_identify_vendor [(0, "Delta"), (1, "Schneider Electric")] = "Schneider PLC"
    ∧ ("Delta PLC" : String) ≠ "Schneider PLC" := by
  refine ⟨by decide, by decide, by decide⟩

/-- C2 amended: `identify_vendor` scans the FIELDS in mapping order in the
    outer loop and the signature table in the inner loop, so the first
    matching field decides (via the first matching signature in table
    order). Consequently: (1) if no signature matches any field value the
    result is "Unknown Device", and (2) if "Siemens" is the only signature
    matching any field value (case-insensitively) and some value does match
    it, the result is "Siemens S7" regardless of field ordering. -/
theorem identify_vendor_amended (info : List (Nat × String)) :
    ((∀ kv ∈ info, ∀ p ∈ DEVICE_SIGNATURES,
        strContains (lowerStr kv.2) (lowerStr p.1) = false) →
      identify_vendor info = "Unknown Device")
    ∧ ((∀ kv ∈ info, ∀ p ∈ DEVICE_SIGNATURES,
        strContains (lowerStr kv.2) (lowerStr p.1) = true → p.1 = "Siemens") →
      (∃ kv ∈ info, strContains (lowerStr kv.2) (lowerStr "Siemens") = true) →
      identify_vendor info = "Siemens S7") := by
  constructor
  · intro h
    rw [identify_vendor]
    have : info.findSome? (fun kv => vendorOfValue kv.2) = none := by
      rw [List.findSome?_eq_none_iff]
      intro kv hkv
      rw [vendorOfValue, List.findSome?_eq_none_iff]
      intro p hp
      rw [h kv hkv p hp]
      simp
    rw [this]
  · intro h hex
    rw [identify_vendor]
    have hsome : info.findSome? (fun kv => vendorOfValue kv.2) = some "Siemens S7" := by
      refine findSome?_eq_const _ _ info
        (fun kv hkv => vendorOfValue_none_or_siemens kv.2 (h kv hkv)) ?_
      rcases hex with ⟨kv, hkv, hmatch⟩
      exact ⟨kv, hkv, vendorOfValue_ne_none_of_siemens kv.2 hmatch⟩
    rw [hsome]

/-- C2 amended witness: a single mixed-case "sIeMeNs" field yields
    "Siemens S7"; a field with no known signature yields "Unknown Device". -/
theorem identify_vendor_amended_witness :
    identify_vendor [(0, "Model: sIeMeNs S7-1200")] = "Siemens S7"
    ∧ identify_vendor [(0, "acme device")] = "Unknown Device" := by
  constructor
  · exact (identify_vendor_amended [(0, "Model: sIeMeNs S7-1200")]).2
      (by decide) (by decide)
  · exact (identify_vendor_amended [(0, "acme device")]).1 (by decide)

/-! ### C1: fallback fingerprinting -/

lemma pyReprProbeList_ne_empty (rs : List Record) : pyReprProbeList rs ≠ "" := by
  intro h
  have hl := congrArg String.length h
  simp only [pyReprProbeList] at hl
  have h1 : "[".length = 1 := rfl
  have h2 : "]".length = 1 := rfl
  have h0 : "".length = 0 := rfl
  rw [String.length_append, String.length_append, h1, h2, h0] at hl
  omega

lemma banner_grab_some_hex (conn : RawConn) (b : String)
    (h : (banner_grab conn).2 = some b) : ∃ bs, b = hexEncode bs := by
  rcases conn with ⟨co, so, rd⟩
  rw [banner_grab] at h
  cases co with
  | false => simp at h
  | true =>
      cases so with
      | false => simp at h
      | true =>
          cases rd with
          | none => simp at h
          | some data =>
              simp at h
              exact ⟨data.take 1024, h.symm⟩

lemma fallback_record_shape (beh : ClientBehavior) (conn : RawConn) (ip : String) :
    fieldOf (fallback_fingerprint beh conn ip) "Type"
        = some (.vStr "fallback_fingerprint")
    ∧ fieldOf (fallback_fingerprint beh conn ip) "Status" = some (.vStr "OK")
    ∧ (∃ s, fieldOf (fallback_fingerprint beh conn ip) "RegisterSample"
          = some (.vStr s) ∧ s ≠ "")
    ∧ (∃ b, fieldOf (fallback_fingerprint beh conn ip) "Banner" = some (.vStr b)
          ∧ (b = "None" ∨ ∃ bs, b = hexEncode bs))
    ∧ (scan_registers beh ip 0 10 2 "holding").length = 5 := by
  refine ⟨rfl, rfl, ⟨pyReprProbeList (scan_registers beh ip 0 10 2 "holding"),
    rfl, pyReprProbeList_ne_empty _⟩, ?_, rfl⟩
  cases hb : (banner_grab conn).2 with
  | none =>
      refine ⟨"None", ?_, Or.inl rfl⟩
      simp only [fallback_fingerprint, fieldOf, List.lookup, hb]
      rfl
  | some b =>
      by_cases hbe : b = ""
      · refine ⟨"None", ?_, Or.inl rfl⟩
        simp only [fallback_fingerprint, fieldOf, List.lookup, hb, hbe]
        rfl
      · refine ⟨b, ?_, Or.inr (banner_grab_some_hex conn b hb)⟩
        simp only [fallback_fingerprint, fieldOf, List.lookup, hb]
        simp [hbe]

/-- C1 counterexample: in modbusrecon_toolkit.py a device-identification
    request that raises a transport exception (a failed request) produces a
    record whose type is "device_info", not "fallback_fingerprint" — the
    claimed iff fails on the modbusrecon engine. -/
theorem fallback_iff_refuted :
    behInfoExn.readDeviceInfo.failed = true
    ∧ (mr_fingerprint_device behInfoExn "10.0.0.5" 502).map (fun r => fieldOf r "Type")
        = some (some (.vStr "device_info"))
    ∧ Value.vStr "device_info" ≠ Value.vStr "fallback_fingerprint" := by
  refine ⟨rfl, rfl, by decide⟩

/-- C1 amended: in modbus_toolkit.py's `fingerprint_device` the record type
    is "fallback_fingerprint" iff the device-identification request failed
    (error response or exception), and every fallback record has status
    "OK", a non-empty register-sample string (drawn from five scan windows),
    and a banner field that is either a hex string or the marker "None". In
    modbusrecon_toolkit.py's `fingerprint_device` there is no fallback at
    all: a protocol error yields no record and a transport exception yields
    a "device_info" record. -/
theorem fallback_fingerprint_amended (beh : ClientBehavior) (conn : RawConn)
    (ip : String) (port : Nat) :
    (fieldOf (mt_fingerprint_device beh conn ip) "Type"
        = some (.vStr "fallback_fingerprint") ↔ beh.readDeviceInfo.failed = true)
    ∧ (beh.readDeviceInfo.failed = true →
        fieldOf (mt_fingerprint_device beh conn ip) "Status" = some (.vStr "OK")
        ∧ (∃ s, fieldOf (mt_fingerprint_device beh conn ip) "RegisterSample"
              = some (.vStr s) ∧ s ≠ "")
        ∧ (∃ b, fieldOf (mt_fingerprint_device beh conn ip) "Banner"
              = some (.vStr b) ∧ (b = "None" ∨ ∃ bs, b = hexEncode bs)))
    ∧ (beh.readDeviceInfo = .err → mr_fingerprint_device beh ip port = none)
    ∧ (∀ e, beh.readDeviceInfo = .exn e →
        ∃ r, mr_fingerprint_device beh ip port = some r
          ∧ fieldOf r "Type" = some (.vStr "device_info")) := by
  obtain ⟨rh, ri, rc, wr, rdi⟩ := beh
  cases rdi with
  | ok information =>
      refine ⟨?_, ?_, ?_, ?_⟩
      · have h0 : fieldOf (mt_fingerprint_device ⟨rh, ri, rc, wr, .ok information⟩ conn ip)
            "Type" = some (Value.vStr "device_info") := rfl
        rw [h0]
        constructor
        · intro h
          exact absurd (Option.some.inj h) (by decide)
        · intro h
          exact Bool.noConfusion h
      · intro h
        exact Bool.noConfusion h
      · intro h
        cases h
      · intro e he
        cases he
  | err =>
      have hshape := fallback_record_shape ⟨rh, ri, rc, wr, .err⟩ conn ip
      refine ⟨iff_of_true hshape.1 rfl,
        fun _ => ⟨hshape.2.1, hshape.2.2.1, hshape.2.2.2.1⟩, fun _ => rfl, ?_⟩
      intro e he
      cases he
  | exn e =>
      have hshape := fallback_record_shape ⟨rh, ri, rc, wr, .exn e⟩ conn ip
      refine ⟨iff_of_true hshape.1 rfl,
        fun _ => ⟨hshape.2.1, hshape.2.2.1, hshape.2.2.2.1⟩, ?_, ?_⟩
      · intro h
        cases h
      · intro e' he
        exact ⟨_, rfl, rfl⟩

/-- C1 amended witness: a target whose device identification returns an
    error response yields a fallback record from the modbus_toolkit engine
    and no record from the modbusrecon engine. -/
theorem fallback_fingerprint_amended_witness :
    fieldOf (mt_fingerprint_device behErr connDead "10.0.0.9") "Type"
        = some (.vStr "fallback_fingerprint")
    ∧ mr_fingerprint_device behErr "10.0.0.9" 502 = none :=
  ⟨(fallback_fingerprint_amended behErr connDead "10.0.0.9" 502).1.mpr rfl,
   (fallback_fingerprint_amended behErr connDead "10.0.0.9" 502).2.2.1 rfl⟩

/-! ### C3: every record's status is OK, Error, or Exception:<text> -/

/-- The spec's StatusTag shape: the status field is present and is exactly
    `"OK"`, `"Error"`, or `"Exception:" ++ text`. -/
def isWellFormedStatus (r : Record) : Prop :=
  ∃ s, fieldOf r "Status" = some (Value.vStr s) ∧
    (s = "OK" ∨ s = "Error" ∨ ∃ t, s = "Exception:" ++ t)

lemma exceptionTag (e : String) : "Exception: " ++ e = "Exception:" ++ (" " ++ e) := by
  rw [← String.append_assoc]
  rfl

lemma regWindowRecord_status (beh : ClientBehavior) (ip rt : String)
    (addr count : Nat) : isWellFormedStatus (regWindowRecord beh ip rt addr count) := by
  rw [regWindowRecord]
  cases (if rt = "holding" then beh.readHolding addr count
         else beh.readInput addr count) with
  | ok vs => exact ⟨"OK", rfl, Or.inl rfl⟩
  | err => exact ⟨"Error", rfl, Or.inr (Or.inl rfl)⟩
  | exn e => exact ⟨"Exception: " ++ e, rfl, Or.inr (Or.inr ⟨" " ++ e, exceptionTag e⟩)⟩

lemma coilWindowRecord_status (beh : ClientBehavior) (ip : String)
    (addr count : Nat) : isWellFormedStatus (coilWindowRecord beh ip addr count) := by
  rw [coilWindowRecord]
  cases beh.readCoils addr count with
  | ok bs => exact ⟨"OK", rfl, Or.inl rfl⟩
  | err => exact ⟨"Error", rfl, Or.inr (Or.inl rfl)⟩
  | exn e => exact ⟨"Exception: " ++ e, rfl, Or.inr (Or.inr ⟨" " ++ e, exceptionTag e⟩)⟩

lemma fuzzRoundRecord_status (beh : ClientBehavior) (ip : String)
    (count : Nat) (ent : Nat → Nat) :
    isWellFormedStatus (fuzzRoundRecord beh ip count ent) := by
  rw [fuzzRoundRecord]
  cases beh.writeRegisters (randint 0 120 (ent 0))
      ((List.range count).map (fun j => randint 0 65535 (ent (j + 1)))) with
  | ok => exact ⟨"OK", rfl, Or.inl rfl⟩
  | err => exact ⟨"Error", rfl, Or.inr (Or.inl rfl)⟩
  | exn e => exact ⟨"Exception: " ++ e, rfl, Or.inr (Or.inr ⟨" " ++ e, exceptionTag e⟩)⟩

/-- C3: every record produced by the register scan, coil scan, fuzzer and
    both fingerprinting routines resolves to exactly one status, and that
    status is `"OK"`, `"Error"`, or `"Exception:" ++ text` — never absent
    and never any other literal. (Each probe is a total function of the
    behaviour oracle: raised exceptions are consumed at the probe boundary
    and recorded as `Exception:` statuses.) -/
theorem probe_status_wellformed (beh : ClientBehavior) (conn : RawConn)
    (ent : Nat → Nat → Nat) (ip rt : String)
    (port start stop step count iterations : Nat) (_hstep : 0 < step) :
    (∀ r ∈ scan_registers beh ip start stop step rt, isWellFormedStatus r)
    ∧ (∀ r ∈ scan_coils beh ip start stop step, isWellFormedStatus r)
    ∧ (∀ r ∈ fuzz_registers beh ip count iterations ent, isWellFormedStatus r)
    ∧ isWellFormedStatus (mt_fingerprint_device beh conn ip)
    ∧ (∀ r, mr_fingerprint_device beh ip port = some r → isWellFormedStatus r) := by
  refine ⟨?_, ?_, ?_, ?_, ?_⟩
  · intro r hr
    rcases List.mem_map.mp hr with ⟨addr, _, rfl⟩
    exact regWindowRecord_status beh ip rt addr step
  · intro r hr
    rcases List.mem_map.mp hr with ⟨addr, _, rfl⟩
    exact coilWindowRecord_status beh ip addr step
  · intro r hr
    rcases List.mem_map.mp hr with ⟨i, _, rfl⟩
    exact fuzzRoundRecord_status beh ip count (ent i)
  · obtain ⟨rh, ri, rc, wr, rdi⟩ := beh
    cases rdi with
    | ok information => exact ⟨"OK", rfl, Or.inl rfl⟩
    | err => exact ⟨"OK", (fallback_record_shape _ conn ip).2.1, Or.inl rfl⟩
    | exn e => exact ⟨"OK", (fallback_record_shape _ conn ip).2.1, Or.inl rfl⟩
  · intro r hr
    obtain ⟨rh, ri, rc, wr, rdi⟩ := beh
    cases rdi with
    | ok information =>
        cases Option.some.inj hr
        exact ⟨"OK", rfl, Or.inl rfl⟩
    | err => cases hr
    | exn e =>
        cases Option.some.inj hr
        exact ⟨"Exception: " ++ e, rfl, Or.inr (Or.inr ⟨" " ++ e, exceptionTag e⟩)⟩

/-- C3 witness: concrete instances of the status invariant. -/
theorem probe_status_wellformed_witness :
    isWellFormedStatus (mt_fingerprint_device behInfoExn connDead "10.0.0.3")
    ∧ isWellFormedStatus (regWindowRecord behInfoExn "10.0.0.3" "holding" 0 2) := by
  have h := probe_status_wellformed behInfoExn connDead (fun _ _ => 0)
    "10.0.0.3" "holding" 502 0 10 2 3 1 (by decide)
  exact ⟨h.2.2.2.1, h.1 (regWindowRecord behInfoExn "10.0.0.3" "holding" 0 2) (by decide)⟩

/-! ### C4: subnet expansion -/

/-- C4 counterexample: for the /31 subnet 10.0.0.0/31 (network address
    167772160) the expansion yields 2 addresses while
    "total minus network and broadcast" is 0, and it contains both the
    network address and the broadcast address. -/
theorem hosts_usable_refuted :
    (hostsOf 167772160 31).length = 2
    ∧ 2 ^ (32 - 31) - 2 = 0
    ∧ 167772160 ∈ hostsOf 167772160 31
    ∧ 167772161 ∈ hostsOf 167772160 31 := by
  refine ⟨by decide, by decide, by decide, by decide⟩

/-- C4 amended: for every subnet with prefix length ≤ 30 the expansion
    yields exactly the usable host count (total minus network and
    broadcast), never contains the network or broadcast address, and is in
    numeric ascending order; /31 and /32 networks instead yield every
    address of the block (CPython `ipaddress.hosts()` semantics). -/
theorem hosts_usable_amended (net plen : Nat) (h : plen ≤ 30) :
    (hostsOf net plen).length = 2 ^ (32 - plen) - 2
    ∧ net ∉ hostsOf net plen
    ∧ net + 2 ^ (32 - plen) - 1 ∉ hostsOf net plen
    ∧ List.Pairwise (· < ·) (hostsOf net plen) := by
  have hlt : ¬ 31 ≤ plen := by omega
  have hT : 4 ≤ 2 ^ (32 - plen) := by
    calc (4 : Nat) = 2 ^ 2 := by norm_num
    _ ≤ 2 ^ (32 - plen) := Nat.pow_le_pow_right (by norm_num) (by omega)
  rw [hostsOf, if_neg hlt]
  refine ⟨by simp, ?_, ?_, ?_⟩
  · intro hmem
    rcases List.mem_map.mp hmem with ⟨i, _, hEq⟩
    omega
  · intro hmem
    rcases List.mem_map.mp hmem with ⟨i, hi, hEq⟩
    rw [List.mem_range] at hi
    omega
  · exact List.pairwise_map.mpr
      ((List.pairwise_lt_range _).imp (fun hab => by omega))

/-- C4 amended witness: the /30 subnet 10.0.0.0/30 yields the 2 usable
    hosts, excludes network and broadcast, ascending. -/
theorem hosts_usable_amended_witness :
    (hostsOf 167772160 30).length = 2 ^ (32 - 30) - 2
    ∧ 167772160 ∉ hostsOf 167772160 30
    ∧ 167772160 + 2 ^ (32 - 30) - 1 ∉ hostsOf 167772160 30
    ∧ List.Pairwise (· < ·) (hostsOf 167772160 30) :=
  hosts_usable_amended 167772160 30 (by decide)

/-! ### C5: banner probe frame -/

lemma hexEncode_length (bs : List Nat) : (hexEncode bs).length = 2 * bs.length := by
  show (bs.flatMap (fun b => [hexDigitChar (b / 16 % 16), hexDigitChar (b % 16)])).length
      = 2 * bs.length
  induction bs with
  | nil => rfl
  | cons b t ih =>
      rw [List.flatMap_cons, List.length_append, ih, List.length_cons]
      simp
      omega

/-- C5 counterexample: the frame `banner_grab` sends is 10 bytes and is NOT
    the Modbus-TCP encoding of transaction id 0, protocol id 0, length 6,
    unit id 1, function code 3, start address 0, count 1 — that encoding is
    12 bytes (the code's frame omits one of the two-byte zero header
    fields). -/
theorem banner_frame_refuted :
    bannerFrame ≠ specBannerFrame 0 0 6 1 3 0 1
    ∧ bannerFrame.length = 10
    ∧ (specBannerFrame 0 0 6 1 3 0 1).length = 12 := by
  refine ⟨by decide, by decide, by decide⟩

/-- C5 amended: `banner_grab` sends exactly one fixed frame — the 10-byte
    sequence 00 00 00 06 01 03 00 00 00 01 (length field 6, unit id 1,
    function code 3, start address 0, count 1, with only a single two-byte
    zero field before the length, so not a well-formed MBAP header) — and
    sends nothing when the connection fails; it reads at most 1024 bytes,
    returning their hex encoding (hence at most 2048 characters), and
    returns the absent marker `None` on any failure, never raising. -/
theorem banner_grab_amended (conn : RawConn) :
    (banner_grab conn).1 = (if conn.connectOk then [bannerFrame] else [])
    ∧ (∀ s, (banner_grab conn).2 = some s →
        ∃ bs, s = hexEncode (List.take 1024 bs) ∧ s.length ≤ 2048)
    ∧ (conn.connectOk = false ∨ conn.sendOk = false ∨ conn.recvData = none →
        (banner_grab conn).2 = none) := by
  rcases conn with ⟨co, so, rd⟩
  cases co with
  | false =>
      refine ⟨rfl, ?_, fun _ => rfl⟩
      intro s h
      cases h
  | true =>
      cases so with
      | false =>
          refine ⟨rfl, ?_, fun _ => rfl⟩
          intro s h
          cases h
      | true =>
          cases rd with
          | none =>
              refine ⟨rfl, ?_, fun _ => rfl⟩
              intro s h
              cases h
          | some data =>
              refine ⟨rfl, ?_, ?_⟩
              · intro s h
                cases Option.some.inj h
                refine ⟨data, rfl, ?_⟩
                rw [hexEncode_length, List.length_take]
                omega
              · intro hfail
                rcases hfail with hc | hc | hc <;> cases hc

/-- C5 amended witness: a live connection answering three bytes. -/
theorem banner_grab_amended_witness :
    (banner_grab connLive).1 = [bannerFrame]
    ∧ ∃ bs, "0102ff" = hexEncode (List.take 1024 bs) ∧ ("0102ff" : String).length ≤ 2048 :=
  ⟨(banner_grab_amended connLive).1, (banner_grab_amended connLive).2.1 "0102ff" rfl⟩

/-! ### C6: sessions are not closed on every exit path (code bug) -/

/-- C6: evaluating the liveness checks at the failing inputs. In
    modbus_toolkit.py's `check_modbus`, a target whose `read_coils(0, 1)`
    answers without error makes the function `return ip` from inside the
    `try` block BEFORE `client.close()` runs, so the session is left open
    (close flag `false`). In modbusrecon_toolkit.py's `check_modbus`, a
    `read_coils` that raises jumps to the `except` handler, skipping
    `client.close()`, so that session leaks too. -/
theorem session_close_violated :
    mt_check_modbus (some behCoilOk) "10.0.0.1" = (some "10.0.0.1", some false)
    ∧ (mr_check_modbus (fun _ => some behCoilExn) "10.0.0.2" [502]).2 = [false] :=
  ⟨rfl, rfl⟩

/-! ### C7: uniform key sets in the reported sequence -/

/-- Per-host behaviour: the first target answers device identification, the
    second fails it. -/
def behByIp : String → ClientBehavior :=
  fun ip => if ip = "10.0.0.1" then behInfoOk else behErr

/-- C7 counterexample: fingerprinting two targets, one with a successful
    device-identification response and one without, hands the report
    collaborator a sequence whose two records have different key sets. -/
theorem report_uniform_keys_refuted :
    (mt_collect behByIp (fun _ => connDead) ["10.0.0.1", "10.0.0.2"]).map keysOf
      = [["Host", "Type", "Status", "device_0"],
         ["Host", "Type", "Status", "Banner", "RegisterSample"]]
    ∧ (["Host", "Type", "Status", "device_0"] : List String)
      ≠ ["Host", "Type", "Status", "Banner", "RegisterSample"] := by
  refine ⟨by decide, by decide⟩

/-- C7 amended: the core does not enforce the uniform-key contract in
    general (see the counterexample); uniformity does hold when every
    target's device-identification request fails, since then every record
    is a fallback record with the same five keys. -/
theorem report_uniform_keys_amended (beh : String → ClientBehavior)
    (conn : String → RawConn) (targets : List String)
    (h : ∀ ip ∈ targets, ((beh ip).readDeviceInfo).failed = true) :
    ∀ r ∈ mt_collect beh conn targets,
      keysOf r = ["Host", "Type", "Status", "Banner", "RegisterSample"] := by
  intro r hr
  rcases List.mem_map.mp hr with ⟨ip, hip, rfl⟩
  have hf := h ip hip
  cases hdev : (beh ip).readDeviceInfo with
  | ok information =>
      rw [hdev, DevInfoOutcome.failed] at hf
      cases hf
  | err =>
      simp only [mt_fingerprint_device, hdev]
      rfl
  | exn e =>
      simp only [mt_fingerprint_device, hdev]
      rfl

/-- C7 amended witness: one unresponsive target yields the fallback keys. -/
theorem report_uniform_keys_amended_witness :
    keysOf (mt_fingerprint_device behErr connDead "10.0.0.7")
      = ["Host", "Type", "Status", "Banner", "RegisterSample"] :=
  report_uniform_keys_amended (fun _ => behErr) (fun _ => connDead) ["10.0.0.7"]
    (fun _ _ => rfl) _ (by simp [mt_collect])

/-! ### C8: the register/coil sweep -/

lemma pyRange_length (start stop step : Nat) :
    (pyRange start stop step).length = pyRangeLen start stop step := by
  simp [pyRange]

lemma pyRange_getElem (start stop step i : Nat)
    (h : i < (pyRange start stop step).length) :
    (pyRange start stop step)[i] = start + i * step := by
  simp [pyRange]

lemma pyRange_mem_bounds (start stop step : Nat) (hstep : 0 < step) :
    ∀ a ∈ pyRange start stop step, start ≤ a ∧ a < stop := by
  intro a ha
  rcases List.mem_map.mp ha with ⟨i, hi, rfl⟩
  rw [List.mem_range] at hi
  refine ⟨Nat.le_add_right _ _, ?_⟩
  rw [pyRangeLen] at hi
  by_cases hlt : start < stop
  · rw [if_pos hlt] at hi
    have h1 : (stop - start + step - 1) / step * step ≤ stop - start + step - 1 :=
      Nat.div_mul_le_self _ _
    have h2 : (i + 1) * step ≤ (stop - start + step - 1) / step * step :=
      Nat.mul_le_mul_right step hi
    rw [Nat.succ_mul] at h2
    omega
  · rw [if_neg hlt] at hi
    omega

/-- C8: the sweep issues one read per window of `range(start, end, step)`
    requesting `step` registers (or coils) at each window address, returns
    exactly one result per window in scan order (window `i` at address
    `start + i*step`), every window address lies in `[start, end)`, and a
    failed window does not abort the sweep — the number and addresses of
    the windows are independent of the per-window outcomes. -/
theorem register_sweep (beh : ClientBehavior) (ip rt : String)
    (start stop step : Nat) (hstep : 0 < step) :
    (scan_registers beh ip start stop step rt).length = pyRangeLen start stop step
    ∧ (∀ i, ∀ hi : i < (scan_registers beh ip start stop step rt).length,
        (scan_registers beh ip start stop step rt)[i]
          = regWindowRecord beh ip rt (start + i * step) step)
    ∧ (scan_coils beh ip start stop step).length = pyRangeLen start stop step
    ∧ (∀ i, ∀ hi : i < (scan_coils beh ip start stop step).length,
        (scan_coils beh ip start stop step)[i]
          = coilWindowRecord beh ip (start + i * step) step)
    ∧ (∀ a ∈ pyRange start stop step, start ≤ a ∧ a < stop) := by
  refine ⟨?_, ?_, ?_, ?_, pyRange_mem_bounds start stop step hstep⟩
  · simp only [scan_registers, List.length_map, pyRange_length]
  · intro i hi
    simp only [scan_registers, List.getElem_map]
    rw [pyRange_getElem]
  · simp only [scan_coils, List.length_map, pyRange_length]
  · intro i hi
    simp only [scan_coils, List.getElem_map]
    rw [pyRange_getElem]

/-- C8 witness: sweeping `[0, 10)` in steps of 2 issues five windows for
    both scanners. -/
theorem register_sweep_witness :
    (scan_registers behErr "10.0.0.4" 0 10 2 "holding").length = 5
    ∧ (scan_coils behErr "10.0.0.4" 0 10 2).length = 5 :=
  ⟨(register_sweep behErr "10.0.0.4" "holding" 0 10 2 (by decide)).1,
   (register_sweep behErr "10.0.0.4" "holding" 0 10 2 (by decide)).2.2.1⟩

/-! ### C9: the fuzzer -/

/-- C9: the fuzzer produces exactly `iterations` records; record `i` is a
    `fuzz_register` record whose address lies in `[0, 120]`, whose values
    are `count` integers each in `[0, 65535]`, and whose status reflects
    the `write_registers` outcome at exactly that address and those values
    (OK / Error / Exception:<text>). -/
theorem fuzz_rounds (beh : ClientBehavior) (ip : String)
    (count iterations : Nat) (ent : Nat → Nat → Nat) :
    (fuzz_registers beh ip count iterations ent).length = iterations
    ∧ (∀ i, ∀ hi : i < (fuzz_registers beh ip count iterations ent).length,
        ∃ a vs, (fuzz_registers beh ip count iterations ent)[i]
            = [("Host", Value.vStr ip), ("Type", Value.vStr "fuzz_register"),
               ("Address", Value.vNat a), ("Values", Value.vInts vs),
               ("Status", Value.vStr
                 (match beh.writeRegisters a vs with
                  | .ok => "OK"
                  | .err => "Error"
                  | .exn e => "Exception: " ++ e))]
          ∧ a ≤ 120 ∧ vs.length = count ∧ ∀ v ∈ vs, v ≤ 65535) := by
  constructor
  · simp only [fuzz_registers, List.length_map, List.length_range]
  · intro i hi
    simp only [fuzz_registers, List.getElem_map, List.getElem_range]
    refine ⟨randint 0 120 (ent i 0),
      (List.range count).map (fun j => randint 0 65535 (ent i (j + 1))), rfl, ?_, ?_, ?_⟩
    · have := Nat.mod_lt (ent i 0) (y := 121) (by decide)
      rw [randint]
      omega
    · rw [List.length_map, List.length_range]
    · intro v hv
      rcases List.mem_map.mp hv with ⟨j, _, rfl⟩
      have := Nat.mod_lt (ent i (j + 1)) (y := 65536) (by decide)
      rw [randint]
      omega

/-- C9 witness: `count = 3`, `iterations = 1` against a target that always
    returns a protocol error yields exactly one record, of type
    `fuzz_register`, with status `"Error"` and values of length 3. -/
theorem fuzz_rounds_witness :
    (fuzz_registers behErr "10.0.0.8" 3 1 (fun _ _ => 0)).length = 1
    ∧ fieldOf ((fuzz_registers behErr "10.0.0.8" 3 1 (fun _ _ => 0)).getD 0 []) "Type"
        = some (Value.vStr "fuzz_register")
    ∧ fieldOf ((fuzz_registers behErr "10.0.0.8" 3 1 (fun _ _ => 0)).getD 0 []) "Status"
        = some (Value.vStr "Error")
    ∧ fieldOf ((fuzz_registers behErr "10.0.0.8" 3 1 (fun _ _ => 0)).getD 0 []) "Values"
        = some (Value.vInts [0, 0, 0]) :=
  ⟨(fuzz_rounds behErr "10.0.0.8" 3 1 (fun _ _ => 0)).1, by decide, by decide, by decide⟩

/-! ### C10: failed windows carry no values -/

/-- C10: every register- or coil-scan record whose status is not `"OK"`
    (protocol error or exception) has the empty sequence as its values
    field — failed windows never carry partial or stale data. -/
theorem failed_windows_empty (beh : ClientBehavior) (ip rt : String)
    (start stop step : Nat) (_hstep : 0 < step) :
    (∀ r ∈ scan_registers beh ip start stop step rt,
      fieldOf r "Status" ≠ some (Value.vStr "OK") →
        fieldOf r "Values" = some (Value.vInts []))
    ∧ (∀ r ∈ scan_coils beh ip start stop step,
      fieldOf r "Status" ≠ some (Value.vStr "OK") →
        fieldOf r "Values" = some (Value.vBools [])) := by
  constructor
  · intro r hr hne
    rcases List.mem_map.mp hr with ⟨addr, _, rfl⟩
    rw [regWindowRecord] at hne ⊢
    revert hne
    cases (if rt = "holding" then beh.readHolding addr step
           else beh.readInput addr step) with
    | ok vs => exact fun hne => absurd rfl hne
    | err => exact fun _ => rfl
    | exn e => exact fun _ => rfl
  · intro r hr hne
    rcases List.mem_map.mp hr with ⟨addr, _, rfl⟩
    rw [coilWindowRecord] at hne ⊢
    revert hne
    cases beh.readCoils addr step with
    | ok bs => exact fun hne => absurd rfl hne
    | err => exact fun _ => rfl
    | exn e => exact fun _ => rfl

/-- C10 witness: an always-error target's first register window has status
    `"Error"` and empty values. -/
theorem failed_windows_empty_witness :
    fieldOf (regWindowRecord behErr "10.0.0.4" "holding" 0 2) "Values"
      = some (Value.vInts []) :=
  (failed_windows_empty behErr "10.0.0.4" "holding" 0 10 2 (by decide)).1
    (regWindowRecord behErr "10.0.0.4" "holding" 0 2) (by decide) (by decide)

end ModbusSpec
